import Mathlib

/-!
Shallow embedding of the client-side preference managers of the portfolio
repository: the color theme manager (static/js/theme.js), the font palette
manager (static/js/fonts.js), the font size manager (static/js/font-size.js),
the quick-search widget (main script) and the image picker widget
(static/js/image-picker.js).

Browser state touched by the scripts is made explicit: the persisted
localStorage slots become `Option String` fields, the dedicated style
element's text content becomes a `String` field, and the platform
color-scheme preference (matchMedia) becomes a `Bool` input.  DOM writes
that no claim is about (root class names, picker markup, feedback toasts,
dispatched events) are not modeled.  JavaScript numbers appearing in the
font-size computations are modeled as `ℚ`; every arithmetic operation the
source performs on them (`*` of decimal literals) is exact, so no rounding
is lost.  JavaScript string truthiness is modeled by `jsTruthy`.
-/

namespace Portfolio

/-- Truthiness of a possibly-absent JavaScript string
(`undefined`/`null`/`""` are falsy). -/
def jsTruthy : Option String → Bool
  | some s => s ≠ ""
  | none => false

/-- `p.data` is a leading segment of `s.data`; models
`String.prototype.startsWith` from JavaScript, written out on character
lists so that proofs can recurse over it. -/
def listLeads : List Char → List Char → Bool
  | [], _ => true
  | _ :: _, [] => false
  | a :: as, b :: bs => a == b && listLeads as bs

/-- `s.startsWith(p)` from JavaScript. -/
def jsStartsWith (s p : String) : Bool := listLeads p.data s.data

/-- `s.trim()` from JavaScript: strip leading and trailing whitespace. -/
def jsTrim (s : String) : String :=
  String.mk ((s.data.dropWhile Char.isWhitespace).reverse.dropWhile Char.isWhitespace).reverse

/-! ### Color theme manager (static/js/theme.js) -/

/-- One mode sub-table of a palette entry (`light`/`dark` blocks of
`THEMES`, theme.js lines 13-26 etc.). -/
structure ThemeColors where
  primary : String
  secondary : String
  accent : String
  background : String
  text : String
deriving DecidableEq

/-- One entry of `THEMES` (theme.js lines 10-79). -/
structure Theme where
  name : String
  light : ThemeColors
  dark : ThemeColors
deriving DecidableEq

def electricNeon : Theme :=
  { name := "Electric Neon"
    light := { primary := "#6366f1", secondary := "#8b5cf6", accent := "#06b6d4"
               background := "#f8fafc", text := "#1e293b" }
    dark := { primary := "#818cf8", secondary := "#a78bfa", accent := "#67e8f9"
              background := "#0f172a", text := "#f1f5f9" } }

def sunsetGradient : Theme :=
  { name := "Sunset Gradient"
    light := { primary := "#f59e0b", secondary := "#ef4444", accent := "#ec4899"
               background := "#fefbf3", text := "#292524" }
    dark := { primary := "#fbbf24", secondary := "#f87171", accent := "#f472b6"
              background := "#1c1917", text := "#fafaf9" } }

def oceanDeep : Theme :=
  { name := "Ocean Deep"
    light := { primary := "#0ea5e9", secondary := "#06b6d4", accent := "#10b981"
               background := "#f0f9ff", text := "#0c4a6e" }
    dark := { primary := "#38bdf8", secondary := "#22d3ee", accent := "#34d399"
              background := "#082f49", text := "#e0f2fe" } }

def forestModern : Theme :=
  { name := "Forest Modern"
    light := { primary := "#059669", secondary := "#7c3aed", accent := "#f59e0b"
               background := "#f0fdf4", text := "#064e3b" }
    dark := { primary := "#10b981", secondary := "#a855f7", accent := "#fbbf24"
              background := "#022c22", text := "#ecfdf5" } }

/-- The `THEMES` object (theme.js lines 10-79), as an association list in
declaration order. -/
def THEMES : List (String × Theme) :=
  [("electric-neon", electricNeon), ("sunset-gradient", sunsetGradient),
   ("ocean-deep", oceanDeep), ("forest-modern", forestModern)]

/-- `THEMES[key]` (undefined becomes `none`). -/
def themeLookup (key : String) : Option Theme := THEMES.lookup key

/-- The mode list of `toggleMode`/`setMode` (theme.js line 277). -/
def modesList : List String := ["light", "dark", "auto"]

/-- Mutable state of the theme manager.  `currentTheme`/`currentMode` are
the module-level variables (lines 82-83); `storageTheme`/`storageMode` are
the localStorage keys `portfolio-theme`/`portfolio-mode`; `styleContent`
is the text content of the `#theme-variables` style element and
`hasStyleEl` whether that element exists (it is looked up, never created,
line 122); `systemDark` is the platform `prefers-color-scheme: dark`
media-query result. -/
structure ThemeState where
  currentTheme : String
  currentMode : String
  storageTheme : Option String
  storageMode : Option String
  styleContent : String
  hasStyleEl : Bool
  systemDark : Bool
deriving DecidableEq

/-- Initial module state: `currentTheme = 'electric-neon'`,
`currentMode = 'auto'` (theme.js lines 82-83), nothing persisted yet. -/
def initThemeState (systemDark hasStyleEl : Bool) : ThemeState :=
  { currentTheme := "electric-neon", currentMode := "auto"
    storageTheme := none, storageMode := none
    styleContent := "", hasStyleEl := hasStyleEl, systemDark := systemDark }

/-- `getResolvedMode` (theme.js lines 203-208). -/
def getResolvedMode (st : ThemeState) : String :=
  if st.currentMode = "auto" then (if st.systemDark then "dark" else "light")
  else st.currentMode

/-- `hexToRgb` (theme.js lines 495-500): parse `#rrggbb` (hash optional,
case-insensitive) into `"r, g, b"`, else `"0, 0, 0"`. -/
def hexDigit : Char → Option Nat := fun c =>
  if '0' ≤ c ∧ c ≤ '9' then some (c.toNat - 48)
  else if 'a' ≤ c ∧ c ≤ 'f' then some (c.toNat - 87)
  else if 'A' ≤ c ∧ c ≤ 'F' then some (c.toNat - 55)
  else none

def hexToRgb (hex : String) : String :=
  let cs := match hex.data with
    | '#' :: rest => rest
    | other => other
  match cs.mapM hexDigit with
  | some [h1, h2, h3, h4, h5, h6] =>
      toString (h1 * 16 + h2) ++ ", " ++ toString (h3 * 16 + h4) ++ ", " ++
        toString (h5 * 16 + h6)
  | _ => "0, 0, 0"

/-- The CSS text written by `updateCSSVariables` (theme.js lines 218-246);
`theme[mode]` with `mode` resolved to `"dark"` or `"light"`. -/
def themeCSS (theme : Theme) (mode : String) : String :=
  let colors := if mode = "dark" then theme.dark else theme.light
  "\n            :root \x7b\n" ++
  "                /* Portfolio Theme Variables */\n" ++
  "                --portfolio-primary: " ++ colors.primary ++ ";\n" ++
  "                --portfolio-secondary: " ++ colors.secondary ++ ";\n" ++
  "                --portfolio-accent: " ++ colors.accent ++ ";\n" ++
  "                --portfolio-bg: " ++ colors.background ++ ";\n" ++
  "                --portfolio-text: " ++ colors.text ++ ";\n" ++
  "                \n" ++
  "                /* Bootstrap Override Variables */\n" ++
  "                --bs-primary: " ++ colors.primary ++ ";\n" ++
  "                --bs-primary-rgb: " ++ hexToRgb colors.primary ++ ";\n" ++
  "                --bs-secondary: " ++ colors.secondary ++ ";\n" ++
  "                --bs-secondary-rgb: " ++ hexToRgb colors.secondary ++ ";\n" ++
  "                \n" ++
  "                /* Custom Gradient Variables */\n" ++
  "                --theme-gradient-primary: linear-gradient(135deg, " ++ colors.primary ++
    ", " ++ colors.secondary ++ ");\n" ++
  "                --theme-gradient-accent: linear-gradient(135deg, " ++ colors.accent ++
    ", " ++ colors.primary ++ ");\n" ++
  "                --theme-gradient-hero: linear-gradient(135deg, " ++ colors.primary ++
    " 0%, " ++ colors.secondary ++ " 50%, " ++ colors.accent ++ " 100%);\n" ++
  "            \x7d\n" ++
  "            \n" ++
  "            [data-bs-theme=\"" ++ mode ++ "\"] \x7b\n" ++
  "                --portfolio-primary: " ++ colors.primary ++ ";\n" ++
  "                --portfolio-secondary: " ++ colors.secondary ++ ";\n" ++
  "                --portfolio-accent: " ++ colors.accent ++ ";\n" ++
  "                --portfolio-bg: " ++ colors.background ++ ";\n" ++
  "                --portfolio-text: " ++ colors.text ++ ";\n" ++
  "            \x7d\n" ++
  "        "

/-- `applyTheme` (theme.js lines 174-198): bail out when the selected key
has no table entry; otherwise rewrite the style element (when present,
`updateCSSVariables` lines 213-249) and persist both preferences
(`saveThemePreferences` lines 443-446).  Root-element attribute/class
writes, the toggle icon and the dispatched `themechange` event are not
modeled. -/
def applyTheme (st : ThemeState) : ThemeState :=
  match themeLookup st.currentTheme with
  | none => st
  | some theme =>
      let resolvedMode := getResolvedMode st
      let st1 :=
        if st.hasStyleEl then { st with styleContent := themeCSS theme resolvedMode }
        else st
      { st1 with storageTheme := some st1.currentTheme, storageMode := some st1.currentMode }

/-- `changeTheme` (theme.js lines 310-321): unknown key returns before any
mutation. -/
def changeTheme (themeKey : String) (st : ThemeState) : ThemeState :=
  if (themeLookup themeKey).isSome then applyTheme { st with currentTheme := themeKey }
  else st

/-- The successor computation of `toggleMode` (theme.js lines 276-281):
`indexOf` yields `-1` on an unknown mode, so the next index is `0`. -/
def nextMode (m : String) : String :=
  let modes := modesList
  let currentIndex : Int := match modes.findIdx? (fun x => x == m) with
    | some i => (i : Int)
    | none => -1
  let nextIndex := (currentIndex + 1) % (modes.length : Int)
  modes.getD nextIndex.toNat ""

/-- `toggleMode` (theme.js lines 276-286), minus the feedback toast. -/
def toggleMode (st : ThemeState) : ThemeState :=
  applyTheme { st with currentMode := nextMode st.currentMode }

/-- `setMode` (theme.js lines 419-425). -/
def setMode (m : String) (st : ThemeState) : ThemeState :=
  if modesList.contains m then applyTheme { st with currentMode := m } else st

/-- `applyExternalTheme` (theme.js lines 479-490): the key and the mode are
validated independently, then `applyTheme` runs unconditionally. -/
def applyExternalTheme (themeKey : String) (mode : Option String) (st : ThemeState) :
    ThemeState :=
  let st1 := if (themeLookup themeKey).isSome then { st with currentTheme := themeKey } else st
  let st2 := match mode with
    | some m => if m ≠ "" ∧ modesList.contains m then { st1 with currentMode := m } else st1
    | none => st1
  applyTheme st2

/-- `loadThemePreferences` (theme.js lines 128-144).  The persisted key is
accepted only when it names a table entry, but the injected
`SITE_CONFIG.ACTIVE_PALETTE` / `SITE_CONFIG.DEFAULT_THEME` values are
adopted whenever truthy, with no validation. -/
def loadThemePreferences (savedTheme savedMode cfgPalette cfgMode : Option String)
    (st : ThemeState) : ThemeState :=
  let st1 :=
    if jsTruthy savedTheme ∧ (themeLookup (savedTheme.getD "")).isSome then
      { st with currentTheme := savedTheme.getD "" }
    else if jsTruthy cfgPalette then
      { st with currentTheme := cfgPalette.getD "" }
    else st
  if jsTruthy savedMode ∧ modesList.contains (savedMode.getD "") then
    { st1 with currentMode := savedMode.getD "" }
  else if jsTruthy cfgMode then
    { st1 with currentMode := cfgMode.getD "" }
  else st1

/-! ### Font palette manager (static/js/fonts.js) -/

/-- One entry of `FONT_PALETTES` (fonts.js lines 10-43). -/
structure FontPalette where
  name : String
  description : String
  heading : String
  body : String
  accent : String
  className : String
deriving DecidableEq

def modernProfessional : FontPalette :=
  { name := "Modern Professional"
    description := "Clean, readable, excellent for screens"
    heading := "\x27Inter\x27, -apple-system, BlinkMacSystemFont, \x27Segoe UI\x27, system-ui, sans-serif"
    body := "\x27Inter\x27, -apple-system, BlinkMacSystemFont, \x27Segoe UI\x27, system-ui, sans-serif"
    accent := "\x27Inter\x27, -apple-system, BlinkMacSystemFont, \x27Segoe UI\x27, system-ui, sans-serif"
    className := "font-palette-modern-professional" }

def creativeEditorial : FontPalette :=
  { name := "Creative Editorial"
    description := "Elegant serif for headers, clean sans-serif for body"
    heading := "\x27Playfair Display\x27, \x27Georgia\x27, \x27Times New Roman\x27, serif"
    body := "\x27Inter\x27, -apple-system, BlinkMacSystemFont, \x27Segoe UI\x27, system-ui, sans-serif"
    accent := "\x27Playfair Display\x27, \x27Georgia\x27, \x27Times New Roman\x27, serif"
    className := "font-palette-creative-editorial" }

def techMinimalist : FontPalette :=
  { name := "Tech Minimalist"
    description := "Modern monospace for tech-focused content"
    heading := "\x27JetBrains Mono\x27, \x27SF Mono\x27, \x27Monaco\x27, \x27Inconsolata\x27, \x27Roboto Mono\x27, monospace"
    body := "\x27Inter\x27, -apple-system, BlinkMacSystemFont, \x27Segoe UI\x27, system-ui, sans-serif"
    accent := "\x27JetBrains Mono\x27, \x27SF Mono\x27, \x27Monaco\x27, \x27Inconsolata\x27, \x27Roboto Mono\x27, monospace"
    className := "font-palette-tech-minimalist" }

def warmHumanist : FontPalette :=
  { name := "Warm Humanist"
    description := "Friendly, approachable feel with excellent readability"
    heading := "\x27Source Sans Pro\x27, \x27Helvetica Neue\x27, \x27Arial\x27, sans-serif"
    body := "\x27Source Sans Pro\x27, \x27Helvetica Neue\x27, \x27Arial\x27, sans-serif"
    accent := "\x27Source Sans Pro\x27, \x27Helvetica Neue\x27, \x27Arial\x27, sans-serif"
    className := "font-palette-warm-humanist" }

/-- The `FONT_PALETTES` object (fonts.js lines 10-43). -/
def FONT_PALETTES : List (String × FontPalette) :=
  [("modern-professional", modernProfessional), ("creative-editorial", creativeEditorial),
   ("tech-minimalist", techMinimalist), ("warm-humanist", warmHumanist)]

/-- `FONT_PALETTES[key]`. -/
def fontLookup (key : String) : Option FontPalette := FONT_PALETTES.lookup key

/-- Mutable state of the font palette manager: the module variable
`currentFontPalette` (fonts.js line 46), the localStorage slot
`portfolio-font-palette`, and the `#font-variables` style element content
(that element is created on demand, fonts.js line 78, so it always
exists). -/
structure FontState where
  currentFontPalette : String
  storageFontPalette : Option String
  styleContent : String
deriving DecidableEq

/-- Initial module state (`currentFontPalette = 'modern-professional'`,
fonts.js line 46). -/
def initFontState : FontState :=
  { currentFontPalette := "modern-professional", storageFontPalette := none, styleContent := "" }

/-- The CSS text written by `updateFontVariables` (fonts.js lines 159-168). -/
def fontCSS (palette : FontPalette) : String :=
  "\n            :root \x7b\n" ++
  "                /* Font Family Variables */\n" ++
  "                --font-heading: " ++ palette.heading ++ ";\n" ++
  "                --font-body: " ++ palette.body ++ ";\n" ++
  "                --font-accent: " ++ palette.accent ++ ";\n" ++
  "            \x7d\n" ++
  "        "

/-- `applyFontPalette` (fonts.js lines 131-151): bail out on an unknown
key, else rewrite the style element and persist.  Root class writes and
the `fontchange` event are not modeled. -/
def applyFontPalette (st : FontState) : FontState :=
  match fontLookup st.currentFontPalette with
  | none => st
  | some palette =>
      { st with styleContent := fontCSS palette
                storageFontPalette := some st.currentFontPalette }

/-- `changeFontPalette` (fonts.js lines 174-185): unknown key returns
before any mutation. -/
def changeFontPalette (paletteKey : String) (st : FontState) : FontState :=
  if (fontLookup paletteKey).isSome then applyFontPalette { st with currentFontPalette := paletteKey }
  else st

/-- `loadFontPreferences` (fonts.js lines 94-102): the persisted key is
validated against the table, the injected `SITE_CONFIG.ACTIVE_FONT_PALETTE`
is adopted whenever truthy, unvalidated. -/
def loadFontPreferences (savedFontPalette cfgFontPalette : Option String)
    (st : FontState) : FontState :=
  if jsTruthy savedFontPalette ∧ (fontLookup (savedFontPalette.getD "")).isSome then
    { st with currentFontPalette := savedFontPalette.getD "" }
  else if jsTruthy cfgFontPalette then
    { st with currentFontPalette := cfgFontPalette.getD "" }
  else st

/-- `applyExternalFont` (fonts.js lines 300-306). -/
def applyExternalFont (fontKey : String) (st : FontState) : FontState :=
  if (fontLookup fontKey).isSome then applyFontPalette { st with currentFontPalette := fontKey }
  else st

/-! ### Font size manager (static/js/font-size.js) -/

/-- One entry of `FONT_SIZE_SETTINGS` (font-size.js lines 10-41). -/
structure FontSizeSetting where
  name : String
  scale : ℚ
  baseSize : String
  description : String
deriving DecidableEq

/-- The `FONT_SIZE_SETTINGS` object (font-size.js lines 10-41). -/
def FONT_SIZE_SETTINGS : List (String × FontSizeSetting) :=
  [("extra-small", { name := "Extra Small", scale := 0.8, baseSize := "14px"
                     description := "Compact text for dense content" }),
   ("small", { name := "Small", scale := 0.9, baseSize := "15px"
               description := "Slightly smaller for more content" }),
   ("normal", { name := "Normal", scale := 1.0, baseSize := "16px"
                description := "Standard readable size" }),
   ("large", { name := "Large", scale := 1.1, baseSize := "18px"
               description := "Larger for better readability" }),
   ("extra-large", { name := "Extra Large", scale := 1.25, baseSize := "20px"
                     description := "Maximum size for accessibility" })]

/-- `FONT_SIZE_SETTINGS[key]`. -/
def fontSizeLookup (key : String) : Option FontSizeSetting := FONT_SIZE_SETTINGS.lookup key

/-- Mutable state of the font size manager (font-size.js lines 44-47):
`currentBaseSize` holds the numeric value of the base size string (the
source stores `'16px'` and reads it back through `parseFloat`, line 162);
the other scales are numbers already.  `storageFontSize` is the
localStorage slot `portfolio-font-size`; `styleContent` the
`#font-size-variables` style element (created on demand, always
present). -/
structure FontSizeState where
  currentFontSize : String
  currentBaseSize : ℚ
  currentHeadingScale : ℚ
  currentSmallScale : ℚ
  storageFontSize : Option String
  styleContent : String
deriving DecidableEq

/-- Initial module state (font-size.js lines 44-47). -/
def initFontSizeState : FontSizeState :=
  { currentFontSize := "normal", currentBaseSize := 16
    currentHeadingScale := 1.25, currentSmallScale := 0.875
    storageFontSize := none, styleContent := "" }

/-- `basePixels * setting.scale` (font-size.js line 163). -/
def scaledBaseOf (basePixels scale : ℚ) : ℚ := basePixels * scale

/-- The `--font-size-h1` value `scaledBase * currentHeadingScale * 2.5`
(font-size.js line 191). -/
def h1Size (scaledBase headingScale : ℚ) : ℚ := scaledBase * headingScale * 2.5

/-- Decimal rendering of a number interpolated into the CSS template.
JavaScript prints its floats in shortest-round-trip decimal; the exact
digit string is irrelevant to every claim (only determinism matters), so
the canonical rational rendering is used. -/
def numStr (q : ℚ) : String := toString q

/-- The CSS text written by `updateFontSizeVariables`
(font-size.js lines 181-229). -/
def fontSizeCSS (scaledBase headingScale smallScale : ℚ) : String :=
  "\n            :root \x7b\n" ++
  "                /* Font Size Variables */\n" ++
  "                --font-size-base: " ++ numStr scaledBase ++ "px;\n" ++
  "                --font-size-xs: " ++ numStr (scaledBase * 0.75) ++ "px;\n" ++
  "                --font-size-sm: " ++ numStr (scaledBase * smallScale) ++ "px;\n" ++
  "                --font-size-lg: " ++ numStr (scaledBase * 1.125) ++ "px;\n" ++
  "                --font-size-xl: " ++ numStr (scaledBase * 1.25) ++ "px;\n" ++
  "                \n" ++
  "                /* Heading Sizes */\n" ++
  "                --font-size-h1: " ++ numStr (h1Size scaledBase headingScale) ++ "px;\n" ++
  "                --font-size-h2: " ++ numStr (scaledBase * headingScale * 2) ++ "px;\n" ++
  "                --font-size-h3: " ++ numStr (scaledBase * headingScale * 1.75) ++ "px;\n" ++
  "                --font-size-h4: " ++ numStr (scaledBase * headingScale * 1.5) ++ "px;\n" ++
  "                --font-size-h5: " ++ numStr (scaledBase * headingScale * 1.25) ++ "px;\n" ++
  "                --font-size-h6: " ++ numStr (scaledBase * headingScale) ++ "px;\n" ++
  "                \n" ++
  "                /* Display Sizes */\n" ++
  "                --font-size-display-1: " ++ numStr (scaledBase * headingScale * 6) ++ "px;\n" ++
  "                --font-size-display-2: " ++ numStr (scaledBase * headingScale * 5.5) ++ "px;\n" ++
  "                --font-size-display-3: " ++ numStr (scaledBase * headingScale * 4.5) ++ "px;\n" ++
  "                --font-size-display-4: " ++ numStr (scaledBase * headingScale * 3.5) ++ "px;\n" ++
  "            \x7d\n" ++
  "            \n" ++
  "            /* Apply font sizes to elements */\n" ++
  "            body \x7b\n" ++
  "                font-size: var(--font-size-base) !important;\n" ++
  "            \x7d\n" ++
  "            \n" ++
  "            h1, .h1 \x7b font-size: var(--font-size-h1) !important; \x7d\n" ++
  "            h2, .h2 \x7b font-size: var(--font-size-h2) !important; \x7d\n" ++
  "            h3, .h3 \x7b font-size: var(--font-size-h3) !important; \x7d\n" ++
  "            h4, .h4 \x7b font-size: var(--font-size-h4) !important; \x7d\n" ++
  "            h5, .h5 \x7b font-size: var(--font-size-h5) !important; \x7d\n" ++
  "            h6, .h6 \x7b font-size: var(--font-size-h6) !important; \x7d\n" ++
  "            \n" ++
  "            .display-1 \x7b font-size: var(--font-size-display-1) !important; \x7d\n" ++
  "            .display-2 \x7b font-size: var(--font-size-display-2) !important; \x7d\n" ++
  "            .display-3 \x7b font-size: var(--font-size-display-3) !important; \x7d\n" ++
  "            .display-4 \x7b font-size: var(--font-size-display-4) !important; \x7d\n" ++
  "            \n" ++
  "            .fs-1 \x7b font-size: var(--font-size-xl) !important; \x7d\n" ++
  "            .fs-2 \x7b font-size: var(--font-size-lg) !important; \x7d\n" ++
  "            .fs-3 \x7b font-size: var(--font-size-base) !important; \x7d\n" ++
  "            .fs-4 \x7b font-size: var(--font-size-sm) !important; \x7d\n" ++
  "            .fs-5 \x7b font-size: var(--font-size-xs) !important; \x7d\n" ++
  "            \n" ++
  "            small, .small \x7b font-size: var(--font-size-sm) !important; \x7d\n" ++
  "        "

/-- `applyFontSizes` (font-size.js lines 157-173): bail out on an unknown
key, otherwise rewrite the style element
(`updateFontSizeVariables`, lines 178-232) and persist
(`saveFontSizePreferences`, lines 377-379).  The `fontsizechange` event is
not modeled. -/
def applyFontSizes (st : FontSizeState) : FontSizeState :=
  match fontSizeLookup st.currentFontSize with
  | none => st
  | some setting =>
      let scaledBase := scaledBaseOf st.currentBaseSize setting.scale
      { st with
          styleContent := fontSizeCSS scaledBase st.currentHeadingScale st.currentSmallScale
          storageFontSize := some st.currentFontSize }

/-- `changeFontSize` (font-size.js lines 237-248): unknown key returns
before any mutation. -/
def changeFontSize (sizeKey : String) (st : FontSizeState) : FontSizeState :=
  if (fontSizeLookup sizeKey).isSome then applyFontSizes { st with currentFontSize := sizeKey }
  else st

/-! ### Search widget (main script, `initSearch` / `performSearch`)

The `input` handler (main script lines 155-170) trims the value, clears
the pending debounce timer, hides the results when the trimmed query is
shorter than 2 characters, and otherwise schedules `performSearch(query)`
after 300 ms.  A burst of keystrokes all falling inside one debounce
window is modeled as a fold of the handler followed by a single timer
expiry; each keystroke's `clearTimeout` cancels the previously scheduled
search, so only the timer pending at the end of the burst can fire. -/

/-- Search widget state: the query scheduled on the pending debounce
timer (if any), the visibility of the results container, and the network
requests issued so far (their query strings, in order). -/
structure SearchState where
  searchTimeout : Option String
  resultsVisible : Bool
  calls : List String
deriving DecidableEq

def initSearchState : SearchState :=
  { searchTimeout := none, resultsVisible := false, calls := [] }

/-- The `input` event handler of `initSearch` (main script lines 155-170). -/
def handleSearchInput (value : String) (st : SearchState) : SearchState :=
  let query := jsTrim value
  let st1 : SearchState := { st with searchTimeout := none }
  if query.length < 2 then { st1 with resultsVisible := false }
  else { st1 with searchTimeout := some query }

/-- Expiry of the debounce timer: the pending `performSearch(query)`
callback runs and issues the network request (main script lines 167-169
and 197-215).  Response handling is asynchronous and outside the modeled
window; only the issued request is recorded. -/
def fireDebounce (st : SearchState) : SearchState :=
  match st.searchTimeout with
  | some q => { st with searchTimeout := none, calls := st.calls ++ [q] }
  | none => st

/-- A burst of input events inside one debounce window, then the window
expires. -/
def runBurst (inputs : List String) (st : SearchState) : SearchState :=
  fireDebounce (inputs.foldl (fun s v => handleSearchInput v s) st)

/-! ### Image picker widget (static/js/image-picker.js)

`FileReader.readAsDataURL` is a platform API: on success it yields
`data:<mime>;base64,<base64 of the bytes>`.  The base64 encoder/decoder
pair below models the platform `btoa`/`atob` used by
`isValidBase64Image`. -/

def b64Alphabet : List Char :=
  "ABCDEFGHIJKLMNOPQRSTUVWXYZabcdefghijklmnopqrstuvwxyz0123456789+/".data

def b64EncChar (n : Nat) : Char := b64Alphabet.getD n 'A'

/-- Standard base64 encoding of a byte list (platform `btoa`). -/
def btoa : List Nat → String
  | b1 :: b2 :: b3 :: rest =>
      String.mk [b64EncChar (b1 / 4), b64EncChar (b1 % 4 * 16 + b2 / 16),
                 b64EncChar (b2 % 16 * 4 + b3 / 64), b64EncChar (b3 % 64)] ++ btoa rest
  | [b1, b2] =>
      String.mk [b64EncChar (b1 / 4), b64EncChar (b1 % 4 * 16 + b2 / 16),
                 b64EncChar (b2 % 16 * 4)] ++ "="
  | [b1] =>
      String.mk [b64EncChar (b1 / 4), b64EncChar (b1 % 4 * 16)] ++ "=="
  | [] => ""

def b64DecVal (c : Char) : Option Nat :=
  if 'A' ≤ c ∧ c ≤ 'Z' then some (c.toNat - 65)
  else if 'a' ≤ c ∧ c ≤ 'z' then some (c.toNat - 71)
  else if '0' ≤ c ∧ c ≤ '9' then some (c.toNat + 4)
  else if c = '+' then some 62
  else if c = '/' then some 63
  else none

/-- Decode a run of 6-bit groups; a trailing group of 2 or 3 values comes
from a padded final quantum. -/
def b64DecodeGroups : List Nat → Option (List Nat)
  | v1 :: v2 :: v3 :: v4 :: rest =>
      (b64DecodeGroups rest).map
        (fun bs => (v1 * 4 + v2 / 16) :: (v2 % 16 * 16 + v3 / 4) :: (v3 % 4 * 64 + v4) :: bs)
  | [v1, v2, v3] => some [v1 * 4 + v2 / 16, v2 % 16 * 16 + v3 / 4]
  | [v1, v2] => some [v1 * 4 + v2 / 16]
  | [] => some []
  | [_] => none

/-- Platform `atob`: reject malformed input (which makes the JavaScript
call throw), otherwise decode.  Inputs on which this model and the
browser differ (unpadded non-multiple-of-4 strings) are never canonical
encodings, so `btoa (atob s) == s` agrees with the browser
everywhere. -/
def atob (s : String) : Option (List Nat) :=
  let cs := s.data
  let pad := (cs.reverse.takeWhile (fun c => c = '=')).length
  if pad > 2 then none
  else if cs.length % 4 ≠ 0 then none
  else
    let core := cs.take (cs.length - pad)
    if core.any (fun c => c = '=') then none
    else match core.mapM b64DecVal with
      | some vals =>
          if (pad = 1 ∧ vals.length % 4 ≠ 3) ∨ (pad = 2 ∧ vals.length % 4 ≠ 2) then none
          else b64DecodeGroups vals
      | none => none

/-- `isValidBase64Image` (image-picker.js lines 110-124): empty is
invalid, a `data:image/` URL is valid, anything else is valid exactly when
it round-trips through `btoa(atob(str)) === str`. -/
def isValidBase64Image (s : String) : Bool :=
  if s = "" then false
  else if jsStartsWith s "data:image/" then true
  else match atob s with
    | some bytes => btoa bytes == s
    | none => false

/-- A selected file: the declared MIME type and byte size are independent
properties of the `File` object; `bytes` is the content the reader
returns. -/
structure JsFile where
  type : String
  size : Nat
  bytes : List Nat
deriving DecidableEq

/-- Result of `FileReader.readAsDataURL` on success. -/
def readAsDataURL (f : JsFile) : String := "data:" ++ f.type ++ ";base64," ++ btoa f.bytes

/-- Whether the asynchronous file read fires `onload` or `onerror`. -/
inductive ReadOutcome where
  | success
  | failure
deriving DecidableEq

/-- Image picker state: the form field (textarea) value, the alert
messages shown so far, and the preview visibility. -/
structure PickerState where
  textareaValue : String
  alerts : List String
  previewVisible : Bool
deriving DecidableEq

def initPickerState : PickerState :=
  { textareaValue := "", alerts := [], previewVisible := false }

/-- The `maxSize` ceiling, `2 * 1024 * 1024` bytes (image-picker.js
line 68). -/
def maxImageSize : Nat := 2 * 1024 * 1024

/-- `updatePreviewDisplay` (image-picker.js lines 87-96). -/
def updatePreviewDisplay (st : PickerState) : PickerState :=
  let base64Data := jsTrim st.textareaValue
  if base64Data ≠ "" ∧ isValidBase64Image base64Data then
    { st with previewVisible := true }
  else
    { st with previewVisible := false }

/-- `handleImageFile` (image-picker.js lines 60-85): reject non-image
types, then files strictly larger than the ceiling, each with an alert and
no other mutation; an accepted file is read asynchronously — `onload`
stores the data URL in the textarea and refreshes the preview, `onerror`
alerts and touches nothing. -/
def handleImageFile (f : JsFile) (outcome : ReadOutcome) (st : PickerState) : PickerState :=
  if ¬ jsStartsWith f.type "image/" then
    { st with alerts := st.alerts ++ ["Please select a valid image file."] }
  else if f.size > maxImageSize then
    { st with alerts := st.alerts ++
        ["Image file is too large. Please select an image smaller than 2MB."] }
  else
    match outcome with
    | .success => updatePreviewDisplay { st with textareaValue := readAsDataURL f }
    | .failure => { st with alerts := st.alerts ++ ["Error reading file. Please try again."] }

/-- The debounce timer an input event leaves pending: nothing when the
trimmed value is below the 2-character threshold, otherwise a
`performSearch` on the trimmed value. -/
def pendingOf (value : String) : Option String :=
  if (jsTrim value).length < 2 then none else some (jsTrim value)

/-- The last element of a list of keystroke values (`d` for the empty
burst). -/
def lastOr (d : String) : List String → String
  | [] => d
  | [x] => x
  | _ :: x :: xs => lastOr d (x :: xs)

/-- A 3 MB file declared as JPEG (the bytes stand for the content the
reader would return; `File.size` is an independent property). -/
def jpeg3MB : JsFile := { type := "image/jpeg", size := 3 * 1024 * 1024, bytes := [255, 216, 255] }

/-- A 1 MB file declared as JPEG. -/
def jpeg1MB : JsFile := { type := "image/jpeg", size := 1024 * 1024, bytes := [255, 216, 255, 224] }

/-- A file declared as PNG whose size is exactly the 2 MB ceiling. -/
def png2MB : JsFile := { type := "image/png", size := 2 * 1024 * 1024, bytes := [137, 80, 78, 71] }

/-! ## Helper lemmas -/

theorem applyTheme_preserves (st : ThemeState) :
    (applyTheme st).currentTheme = st.currentTheme ∧
    (applyTheme st).currentMode = st.currentMode ∧
    (applyTheme st).systemDark = st.systemDark ∧
    (applyTheme st).hasStyleEl = st.hasStyleEl := by
  unfold applyTheme
  cases themeLookup st.currentTheme with
  | none => exact ⟨rfl, rfl, rfl, rfl⟩
  | some t => cases hs : st.hasStyleEl <;> simp [hs]

theorem applyTheme_styleContent (st : ThemeState) :
    (applyTheme st).styleContent =
      match themeLookup st.currentTheme with
      | none => st.styleContent
      | some t => if st.hasStyleEl then themeCSS t (getResolvedMode st) else st.styleContent := by
  unfold applyTheme
  cases themeLookup st.currentTheme with
  | none => rfl
  | some t => cases hs : st.hasStyleEl <;> simp [hs]

theorem toggleMode_currentMode (st : ThemeState) :
    (toggleMode st).currentMode = nextMode st.currentMode := by
  unfold toggleMode
  exact (applyTheme_preserves _).2.1

theorem loadThemePreferences_currentTheme
    (savedTheme savedMode cfgPalette cfgMode : Option String) (st : ThemeState) :
    (loadThemePreferences savedTheme savedMode cfgPalette cfgMode st).currentTheme =
      (if jsTruthy savedTheme ∧ (themeLookup (savedTheme.getD "")).isSome then savedTheme.getD ""
       else if jsTruthy cfgPalette then cfgPalette.getD ""
       else st.currentTheme) := by
  unfold loadThemePreferences
  split_ifs <;> rfl

/-! ## Claims -/

/-- C5: the color manager's mode toggle is the cyclic successor on
`light, dark, auto` — one toggle from `light` yields `dark`, from `dark`
yields `auto`, from `auto` yields `light` — and for every starting mode,
three toggles return the mode to its starting value. -/
theorem mode_toggle_cycles :
    nextMode "light" = "dark" ∧ nextMode "dark" = "auto" ∧ nextMode "auto" = "light" ∧
    (∀ st : ThemeState, (toggleMode st).currentMode = nextMode st.currentMode) ∧
    (∀ st : ThemeState, st.currentMode ∈ modesList →
      (toggleMode (toggleMode (toggleMode st))).currentMode = st.currentMode) := by
  refine ⟨by decide, by decide, by decide, toggleMode_currentMode, ?_⟩
  intro st h
  rw [toggleMode_currentMode, toggleMode_currentMode, toggleMode_currentMode]
  simp only [modesList, List.mem_cons, List.mem_singleton, List.not_mem_nil, or_false] at h
  rcases h with h | h | h <;> rw [h] <;> decide

/-- Witness for C5 at the initial state (mode `auto`). -/
theorem mode_toggle_cycles_witness :
    (toggleMode (toggleMode (toggleMode (initThemeState false true)))).currentMode =
      (initThemeState false true).currentMode :=
  mode_toggle_cycles.2.2.2.2 (initThemeState false true) (by decide)

/-- C3: preference resolution at load obeys persisted > injected >
hardcoded.  With no persisted theme and a configuration palette
`sunset-gradient`, the resolved palette is `sunset-gradient`, not the
hardcoded default `electric-neon`; with a valid persisted font key
`tech-minimalist` and a configuration font `modern-professional`, the
resolved font palette is `tech-minimalist`. -/
theorem load_precedence_scenarios :
    (loadThemePreferences none none (some "sunset-gradient") none
        (initThemeState false true)).currentTheme = "sunset-gradient" ∧
    (initThemeState false true).currentTheme = "electric-neon" ∧
    "sunset-gradient" ≠ "electric-neon" ∧
    (loadFontPreferences (some "tech-minimalist") (some "modern-professional")
        initFontState).currentFontPalette = "tech-minimalist" := by
  decide

/-- C1 counterexample: with no persisted key and the injected
configuration naming a key with no table entry, the load routines adopt
the unknown key instead of falling back to the built-in default — for
both the theme manager and the font manager — so the selected key then
references no existing entry. -/
theorem config_key_not_validated :
    (loadThemePreferences none none (some "no-such-palette") none
        (initThemeState false true)).currentTheme = "no-such-palette" ∧
    themeLookup "no-such-palette" = none ∧
    (loadFontPreferences none (some "no-such-font")
        initFontState).currentFontPalette = "no-such-font" ∧
    fontLookup "no-such-font" = none := by
  decide

/-- C1 (amended): the persisted key is used only if it names a valid table
entry, but the injected configuration value is adopted whenever present
and non-empty, without validation; consequently the selected key
references an existing table entry after load provided every injected
value is absent, empty, or names a valid entry. -/
theorem load_selected_key_valid :
    (∀ (savedTheme savedMode cfgPalette cfgMode : Option String) (sysDark hasEl : Bool),
      (∀ c, cfgPalette = some c → c = "" ∨ (themeLookup c).isSome = true) →
      (themeLookup (loadThemePreferences savedTheme savedMode cfgPalette cfgMode
        (initThemeState sysDark hasEl)).currentTheme).isSome = true) ∧
    (∀ savedFont cfgFont : Option String,
      (∀ c, cfgFont = some c → c = "" ∨ (fontLookup c).isSome = true) →
      (fontLookup (loadFontPreferences savedFont cfgFont
        initFontState).currentFontPalette).isSome = true) := by
  constructor
  · intro savedTheme savedMode cfgPalette cfgMode sysDark hasEl hcfg
    rw [loadThemePreferences_currentTheme]
    split_ifs with h1 h2
    · exact h1.2
    · cases cfgPalette with
      | none => simp [jsTruthy] at h2
      | some c =>
          rcases hcfg c rfl with hc | hc
          · rw [hc] at h2; simp [jsTruthy] at h2
          · simpa using hc
    · exact (by decide : (themeLookup "electric-neon").isSome = true)
  · intro savedFont cfgFont hcfg
    unfold loadFontPreferences
    split_ifs with h1 h2
    · simpa using h1.2
    · cases cfgFont with
      | none => simp [jsTruthy] at h2
      | some c =>
          rcases hcfg c rfl with hc | hc
          · rw [hc] at h2; simp [jsTruthy] at h2
          · simpa using hc
    · exact (by decide : (fontLookup "modern-professional").isSome = true)

/-- Witness for C1 (amended): an invalid persisted theme key together with
a valid injected palette, and a valid injected font palette with nothing
persisted. -/
theorem load_selected_key_valid_witness :
    (themeLookup (loadThemePreferences (some "zzz") none (some "ocean-deep") none
      (initThemeState false true)).currentTheme).isSome = true ∧
    (fontLookup (loadFontPreferences none (some "warm-humanist")
      initFontState).currentFontPalette).isSome = true := by
  constructor
  · exact load_selected_key_valid.1 (some "zzz") none (some "ocean-deep") none false true
      (by intro c hc; injection hc with h; subst h; exact Or.inr (by decide))
  · exact load_selected_key_valid.2 none (some "warm-humanist")
      (by intro c hc; injection hc with h; subst h; exact Or.inr (by decide))

/-- C2: for every manager, the change operation with a key absent from its
table is a no-op — the whole state (selected key, persisted slots, style
content) is returned unchanged, and no error is raised (the functions are
total). -/
theorem change_unknown_key_noop :
    (∀ (key : String) (st : ThemeState), themeLookup key = none → changeTheme key st = st) ∧
    (∀ (key : String) (st : FontState), fontLookup key = none → changeFontPalette key st = st) ∧
    (∀ (key : String) (st : FontSizeState), fontSizeLookup key = none →
      changeFontSize key st = st) := by
  refine ⟨?_, ?_, ?_⟩ <;> intro key st h <;>
    simp [changeTheme, changeFontPalette, changeFontSize, h]

/-- Witness for C2 at a key none of the tables contains. -/
theorem change_unknown_key_noop_witness :
    changeTheme "missing-key" (initThemeState false true) = initThemeState false true ∧
    changeFontPalette "missing-key" initFontState = initFontState ∧
    changeFontSize "missing-key" initFontSizeState = initFontSizeState :=
  ⟨change_unknown_key_noop.1 _ _ (by decide),
   change_unknown_key_noop.2.1 _ _ (by decide),
   change_unknown_key_noop.2.2 _ _ (by decide)⟩

/-- C4: for every manager, running apply twice in a row with no
intervening state change (and the platform color-scheme input held fixed
inside the state) leaves the generated style-element content identical to
what the first run produced.  The theme half is stated on states whose
mode is one of the three legal values, the domain the manager's own state
machine maintains. -/
theorem apply_idempotent :
    (∀ st : ThemeState, st.currentMode ∈ modesList →
      (applyTheme (applyTheme st)).styleContent = (applyTheme st).styleContent) ∧
    (∀ st : FontState,
      (applyFontPalette (applyFontPalette st)).styleContent =
        (applyFontPalette st).styleContent) ∧
    (∀ st : FontSizeState,
      (applyFontSizes (applyFontSizes st)).styleContent =
        (applyFontSizes st).styleContent) := by
  refine ⟨?_, ?_, ?_⟩
  · intro st _
    have hf := applyTheme_preserves st
    have hres : getResolvedMode (applyTheme st) = getResolvedMode st := by
      unfold getResolvedMode
      rw [hf.2.1, hf.2.2.1]
    rw [applyTheme_styleContent (applyTheme st), hf.1, hf.2.2.2, hres]
    cases h : themeLookup st.currentTheme with
    | none => simp
    | some t =>
        cases hs : st.hasStyleEl with
        | false => simp
        | true =>
            simp only [if_pos rfl, if_true]
            rw [applyTheme_styleContent st, h]
            simp [hs]
  · intro st
    cases h : fontLookup st.currentFontPalette <;> simp [applyFontPalette, h]
  · intro st
    cases h : fontSizeLookup st.currentFontSize <;> simp [applyFontSizes, h]

/-- Witness for C4 at the initial states of the three managers. -/
theorem apply_idempotent_witness :
    (applyTheme (applyTheme (initThemeState true true))).styleContent =
      (applyTheme (initThemeState true true)).styleContent ∧
    (applyFontPalette (applyFontPalette initFontState)).styleContent =
      (applyFontPalette initFontState).styleContent ∧
    (applyFontSizes (applyFontSizes initFontSizeState)).styleContent =
      (applyFontSizes initFontSizeState).styleContent :=
  ⟨apply_idempotent.1 _ (by decide), apply_idempotent.2.1 _, apply_idempotent.2.2 _⟩

/-- C6: applying the `large` entry (scale 1.1) to a base size of 16px
computes a scaled base of 17.6px, the derived h1 size is
`1.1 × headingScale × 2.5 × 16` pixels, and the apply routine writes the
style content generated from exactly that scaled base. -/
theorem fontsize_large_arithmetic :
    ∀ headingScale smallScale : ℚ,
      (fontSizeLookup "large").map (fun s => scaledBaseOf 16 s.scale) = some 17.6 ∧
      h1Size 17.6 headingScale = 1.1 * headingScale * 2.5 * 16 ∧
      (applyFontSizes
          { currentFontSize := "large", currentBaseSize := 16,
            currentHeadingScale := headingScale, currentSmallScale := smallScale,
            storageFontSize := none, styleContent := "" }).styleContent =
        fontSizeCSS 17.6 headingScale smallScale := by
  intro headingScale smallScale
  have hlook : fontSizeLookup "large" =
      some { name := "Large", scale := 1.1, baseSize := "18px",
             description := "Larger for better readability" } := by rfl
  have hscale : scaledBaseOf 16 (1.1 : ℚ) = 17.6 := by
    unfold scaledBaseOf; norm_num
  refine ⟨?_, ?_, ?_⟩
  · rw [hlook]
    simp [hscale]
  · unfold h1Size; ring
  · simp only [applyFontSizes, hlook]
    rw [hscale]

/-- Witness for C6 at the default heading and small scales. -/
theorem fontsize_large_arithmetic_witness :
    h1Size 17.6 1.25 = 1.1 * 1.25 * 2.5 * 16 :=
  (fontsize_large_arithmetic 1.25 0.875).2.1

theorem handleSearchInput_calls (v : String) (st : SearchState) :
    (handleSearchInput v st).calls = st.calls := by
  simp only [handleSearchInput]
  split <;> rfl

theorem handleSearchInput_timeout (v : String) (st : SearchState) :
    (handleSearchInput v st).searchTimeout = pendingOf v := by
  simp only [handleSearchInput, pendingOf]
  split <;> rfl

theorem foldl_search_calls (inputs : List String) (st : SearchState) :
    (inputs.foldl (fun s v => handleSearchInput v s) st).calls = st.calls := by
  induction inputs generalizing st with
  | nil => rfl
  | cons v rest ih => rw [List.foldl_cons, ih, handleSearchInput_calls]

theorem foldl_search_timeout (rest : List String) (v : String) (st : SearchState) :
    ((v :: rest).foldl (fun s u => handleSearchInput u s) st).searchTimeout =
      pendingOf (lastOr "" (v :: rest)) := by
  induction rest generalizing v st with
  | nil =>
      rw [List.foldl_cons, List.foldl_nil]
      exact handleSearchInput_timeout v st
  | cons w ws ih =>
      rw [List.foldl_cons]
      rw [ih w (handleSearchInput v st)]
      rfl

theorem foldl_search_visible (rest : List String) (v : String) (st : SearchState)
    (h : (jsTrim (lastOr "" (v :: rest))).length < 2) :
    ((v :: rest).foldl (fun s u => handleSearchInput u s) st).resultsVisible = false := by
  induction rest generalizing v st with
  | nil =>
      have hv : lastOr "" [v] = v := rfl
      rw [hv] at h
      rw [List.foldl_cons, List.foldl_nil]
      simp [handleSearchInput, h]
  | cons w ws ih =>
      rw [List.foldl_cons]
      exact ih w (handleSearchInput v st) h

/-- C7 (amended): within one debounce window, a burst of input events
followed by the window's expiry issues no network call and hides the
results when the final keystroke's trimmed value is below the 2-character
threshold, and issues exactly one network call — whose query string is
the final keystroke's trimmed value — when that value is at or above the
threshold.  In particular a below-threshold query never issues a call,
and intermediate keystrokes of a burst never issue calls. -/
theorem debounce_window (st : SearchState) (v : String) (rest : List String) (final : String)
    (hlast : lastOr "" (v :: rest) = final) :
    ((jsTrim final).length < 2 →
      (runBurst (v :: rest) st).calls = st.calls ∧
      (runBurst (v :: rest) st).resultsVisible = false) ∧
    (2 ≤ (jsTrim final).length →
      (runBurst (v :: rest) st).calls = st.calls ++ [jsTrim final]) := by
  subst hlast
  constructor
  · intro hshort
    unfold runBurst
    have ht := foldl_search_timeout rest v st
    have hc := foldl_search_calls (v :: rest) st
    have hv := foldl_search_visible rest v st hshort
    rw [pendingOf, if_pos hshort] at ht
    unfold fireDebounce
    rw [ht]
    exact ⟨hc, hv⟩
  · intro hlong
    unfold runBurst
    have ht := foldl_search_timeout rest v st
    have hc := foldl_search_calls (v :: rest) st
    rw [pendingOf, if_neg (by omega)] at ht
    unfold fireDebounce
    rw [ht]
    simpa using hc

/-- Witness for C7 (amended): a two-keystroke burst ending at or above
the threshold issues exactly the one call on the final value. -/
theorem debounce_window_witness :
    (runBurst ["a", "abc"] initSearchState).calls =
      initSearchState.calls ++ [jsTrim "abc"] :=
  (debounce_window initSearchState "a" ["abc"] "abc" (by decide)).2 (by decide)

/-- C7 counterexample: the first keystroke `"ab"` is at the threshold, a
further keystroke `"a"` arrives inside the debounce window; the claim
asserts the burst issues exactly one network call carrying the final
keystroke's value, but the code issues none (the short query cancels the
pending timer and hides the results). -/
theorem debounce_exactly_one_call_fails :
    2 ≤ (jsTrim "ab").length ∧
    (runBurst ["ab", "a"] initSearchState).calls = [] ∧
    (runBurst ["ab", "a"] initSearchState).resultsVisible = false := by
  decide

theorem listLeads_append_both (x y z : List Char) :
    listLeads (x ++ y) (x ++ z) = listLeads y z := by
  induction x with
  | nil => rfl
  | cons a as ih => simp [listLeads, ih]

theorem listLeads_extend (p : List Char) :
    ∀ (s t : List Char), listLeads p s = true → listLeads p (s ++ t) = true := by
  induction p with
  | nil => intro s t _; rfl
  | cons a as ih =>
      intro s t h
      cases s with
      | nil => simp [listLeads] at h
      | cons b bs =>
          simp only [listLeads, Bool.and_eq_true, List.cons_append] at h ⊢
          exact ⟨h.1, ih bs t h.2⟩

theorem readAsDataURL_image (f : JsFile) (h : jsStartsWith f.type "image/" = true) :
    jsStartsWith (readAsDataURL f) "data:image/" = true := by
  unfold jsStartsWith at h ⊢
  unfold readAsDataURL
  rw [show ("data:image/").data = ("data:").data ++ ("image/").data from rfl]
  rw [String.data_append, String.data_append, String.data_append]
  rw [List.append_assoc, List.append_assoc]
  rw [listLeads_append_both]
  exact listLeads_extend _ _ _ h

theorem isValidBase64Image_dataURL (s : String) (h : jsStartsWith s "data:image/" = true) :
    isValidBase64Image s = true := by
  unfold isValidBase64Image
  have hne : s ≠ "" := by
    intro he
    subst he
    exact absurd h (by decide)
  rw [if_neg hne, if_pos h]

theorem updatePreview_textarea (st : PickerState) :
    (updatePreviewDisplay st).textareaValue = st.textareaValue := by
  simp only [updatePreviewDisplay]
  split <;> rfl

theorem handleImageFile_bad_type (f : JsFile) (oc : ReadOutcome) (st : PickerState)
    (ht : ¬ jsStartsWith f.type "image/" = true) :
    handleImageFile f oc st =
      { st with alerts := st.alerts ++ ["Please select a valid image file."] } := by
  unfold handleImageFile
  rw [if_pos ht]

theorem handleImageFile_too_large (f : JsFile) (oc : ReadOutcome) (st : PickerState)
    (ht : jsStartsWith f.type "image/" = true) (hsize : maxImageSize < f.size) :
    handleImageFile f oc st =
      { st with alerts := st.alerts ++
          ["Image file is too large. Please select an image smaller than 2MB."] } := by
  unfold handleImageFile
  rw [if_neg (by simp [ht]), if_pos hsize]

theorem handleImageFile_accepted (f : JsFile) (oc : ReadOutcome) (st : PickerState)
    (ht : jsStartsWith f.type "image/" = true) (hsize : f.size ≤ maxImageSize) :
    handleImageFile f oc st =
      match oc with
      | ReadOutcome.success => updatePreviewDisplay { st with textareaValue := readAsDataURL f }
      | ReadOutcome.failure =>
          { st with alerts := st.alerts ++ ["Error reading file. Please try again."] } := by
  unfold handleImageFile
  rw [if_neg (by simp [ht]), if_neg (by omega)]

/-- C8: the image picker rejects any file whose declared type is not an
image type and any file strictly over the 2 MB ceiling, with an alert and
no field mutation; an accepted file populates the field with a
`data:image/...` data URL — which the picker's own validity check
recognizes — once the read succeeds, and a read failure alerts and leaves
the field untouched. -/
theorem image_file_validation :
    ∀ (f : JsFile) (oc : ReadOutcome) (st : PickerState),
      ((jsStartsWith f.type "image/" = false ∨ maxImageSize < f.size) →
        (handleImageFile f oc st).textareaValue = st.textareaValue ∧
        ∃ m, (handleImageFile f oc st).alerts = st.alerts ++ [m]) ∧
      (jsStartsWith f.type "image/" = true → f.size ≤ maxImageSize →
        (handleImageFile f ReadOutcome.success st).textareaValue = readAsDataURL f ∧
        jsStartsWith (readAsDataURL f) "data:image/" = true ∧
        isValidBase64Image (readAsDataURL f) = true ∧
        (handleImageFile f ReadOutcome.failure st).textareaValue = st.textareaValue ∧
        ∃ m, (handleImageFile f ReadOutcome.failure st).alerts = st.alerts ++ [m]) := by
  intro f oc st
  constructor
  · intro h
    by_cases ht : jsStartsWith f.type "image/" = true
    · have hsize : maxImageSize < f.size := by
        rcases h with h | h
        · rw [ht] at h; cases h
        · exact h
      rw [handleImageFile_too_large f oc st ht hsize]
      exact ⟨rfl, _, rfl⟩
    · rw [handleImageFile_bad_type f oc st ht]
      exact ⟨rfl, _, rfl⟩
  · intro ht hsize
    rw [handleImageFile_accepted f ReadOutcome.success st ht hsize,
      handleImageFile_accepted f ReadOutcome.failure st ht hsize]
    exact ⟨updatePreview_textarea _, readAsDataURL_image f ht,
      isValidBase64Image_dataURL _ (readAsDataURL_image f ht), rfl, _, rfl⟩

/-- Witness for C8: a 3 MB JPEG is rejected without touching the field; a
1 MB JPEG populates the field with a data URL the validity check
accepts. -/
theorem image_file_validation_witness :
    (handleImageFile jpeg3MB ReadOutcome.success initPickerState).textareaValue =
      initPickerState.textareaValue ∧
    (handleImageFile jpeg1MB ReadOutcome.success initPickerState).textareaValue =
      readAsDataURL jpeg1MB ∧
    isValidBase64Image (readAsDataURL jpeg1MB) = true := by
  refine ⟨((image_file_validation jpeg3MB ReadOutcome.success initPickerState).1
      (Or.inr (by decide))).1, ?_, ?_⟩
  · exact ((image_file_validation jpeg1MB ReadOutcome.success initPickerState).2
      (by decide) (by decide)).1
  · exact ((image_file_validation jpeg1MB ReadOutcome.success initPickerState).2
      (by decide) (by decide)).2.2.1

/-- C9: the size check uses strict inequality — a declared image file of
size at most the ceiling (in particular exactly `2 * 1024 * 1024` bytes)
is accepted and the read populates the field, while only files strictly
larger are rejected. -/
theorem image_size_strict_boundary :
    ∀ (f : JsFile) (st : PickerState),
      jsStartsWith f.type "image/" = true →
      ((f.size ≤ maxImageSize →
         (handleImageFile f ReadOutcome.success st).textareaValue = readAsDataURL f) ∧
       (maxImageSize < f.size →
         (handleImageFile f ReadOutcome.success st).textareaValue = st.textareaValue ∧
         ∃ m, (handleImageFile f ReadOutcome.success st).alerts = st.alerts ++ [m])) := by
  intro f st ht
  constructor
  · intro hsize
    rw [handleImageFile_accepted f ReadOutcome.success st ht hsize]
    exact updatePreview_textarea _
  · intro hsize
    rw [handleImageFile_too_large f ReadOutcome.success st ht hsize]
    exact ⟨rfl, _, rfl⟩

/-- Witness for C9: a PNG of exactly `2 * 1024 * 1024` bytes is accepted
and the field is populated with its data URL. -/
theorem image_size_strict_boundary_witness :
    png2MB.size = 2 * 1024 * 1024 ∧
    (handleImageFile png2MB ReadOutcome.success initPickerState).textareaValue =
      readAsDataURL png2MB :=
  ⟨by decide, (image_size_strict_boundary png2MB initPickerState (by decide)).1 (by decide)⟩

theorem applyTheme_storage (st : ThemeState) (t : Theme)
    (h : themeLookup st.currentTheme = some t) :
    (applyTheme st).storageTheme = some st.currentTheme ∧
    (applyTheme st).storageMode = some st.currentMode := by
  unfold applyTheme
  rw [h]
  cases hs : st.hasStyleEl <;> simp [hs]

/-- C10: the external override entry point validates the theme key and
the mode independently — an invalid key together with a valid mode leaves
the selected theme key unchanged while the mode is still updated, applied
to the style element, and persisted (both slots are rewritten); the pair
is not rejected as a whole. -/
theorem external_override_independent :
    ∀ (st : ThemeState) (key m : String) (t : Theme),
      themeLookup key = none →
      themeLookup st.currentTheme = some t →
      m ∈ modesList →
      (applyExternalTheme key (some m) st).currentTheme = st.currentTheme ∧
      (applyExternalTheme key (some m) st).currentMode = m ∧
      (applyExternalTheme key (some m) st).storageTheme = some st.currentTheme ∧
      (applyExternalTheme key (some m) st).storageMode = some m ∧
      (st.hasStyleEl = true →
        (applyExternalTheme key (some m) st).styleContent =
          themeCSS t (getResolvedMode { st with currentMode := m })) := by
  intro st key m t hkey hcur hm
  have hne : m ≠ "" := by
    intro he
    subst he
    simp [modesList] at hm
  have hcont : modesList.contains m = true := List.elem_iff.mpr hm
  have step : applyExternalTheme key (some m) st = applyTheme { st with currentMode := m } := by
    unfold applyExternalTheme
    rw [hkey]
    simp [hne, hcont, hm]
  have hcur' : themeLookup ({ st with currentMode := m } : ThemeState).currentTheme = some t :=
    hcur
  refine ⟨?_, ?_, ?_, ?_, ?_⟩
  · rw [step]; exact (applyTheme_preserves _).1
  · rw [step]; exact (applyTheme_preserves _).2.1
  · rw [step]; exact (applyTheme_storage _ t hcur').1
  · rw [step]; exact (applyTheme_storage _ t hcur').2
  · intro hs
    rw [step, applyTheme_styleContent, hcur']
    simp [hs]

/-- Witness for C10: an unknown key with mode `dark` at the initial state
keeps the theme `electric-neon` but switches and persists the mode. -/
theorem external_override_independent_witness :
    (applyExternalTheme "no-such-theme" (some "dark") (initThemeState false true)).currentTheme =
      "electric-neon" ∧
    (applyExternalTheme "no-such-theme" (some "dark") (initThemeState false true)).currentMode =
      "dark" ∧
    (applyExternalTheme "no-such-theme" (some "dark") (initThemeState false true)).storageMode =
      some "dark" := by
  have h := external_override_independent (initThemeState false true) "no-such-theme" "dark"
    electricNeon (by decide) (by decide) (by decide)
  exact ⟨h.1, h.2.1, h.2.2.2.1⟩

end Portfolio
